import Mathlib

/-!
Shallow embedding of the runtime orchestration layer of luastatus
(src/luastatus/luastatus.c) and of the udev plugin's option parsing
(src/plugins/udev/udev.c), together with theorems settling the frozen
claims about the natural-language specification.

The Lua stack of one interpreter instance is modelled as a list of
abstract values, head = top of stack.  Side effects relevant to the
claims (mutex operations, barlib delivery calls, process termination)
are modelled as explicit action traces.
-/

namespace Luastatus

/-- Abstract values living on a Lua stack.  Only the identity classes that
the orchestration code distinguishes are kept: the pinned error handler,
a callback function (main or event), an argument pushed by the caller, a
result of a protected call, an error object, and Lua nil. -/
inductive LuaVal
  | errHandler
  | cbFun
  | eventFun
  | argVal
  | resultVal
  | errVal
  | nilVal
deriving DecidableEq, Repr

/-- A Lua stack: head of the list is the top of the stack. -/
abbrev LuaStack := List LuaVal

/-- `lua_settop(L, n)`: truncates the stack to `n` values (or pads with nil
when the stack is shorter, which never happens in the modelled code). -/
def lua_settop (n : Nat) (s : LuaStack) : LuaStack :=
  if n ≤ s.length then s.drop (s.length - n)
  else List.replicate (n - s.length) LuaVal.nilVal ++ s

/-- A Lua reference in a state's registry, as produced by `luaL_ref`:
either `LUA_REFNIL` (the referenced value was nil) or a real reference. -/
inductive LuaRef
  | refNil
  | ref (n : Nat)
deriving DecidableEq, Repr

/-- `lua_rawgeti(L, LUA_REGISTRYINDEX, r)`: pushes the value referenced by
`r` — nil for `LUA_REFNIL`, otherwise the pinned value `v`. -/
def lua_rawgeti_registry (r : LuaRef) (v : LuaVal) (s : LuaStack) : LuaStack :=
  (if r = LuaRef.refNil then LuaVal.nilVal else v) :: s

/-- `lua_pcall(L, nargs, nresults, 1)`: pops the function and its `nargs`
arguments; on success pushes `nresults` results, on failure pushes one
error object. -/
def lua_pcall (success : Bool) (nargs nresults : Nat) (s : LuaStack) : LuaStack :=
  if success then List.replicate nresults LuaVal.resultVal ++ s.drop (nargs + 1)
  else LuaVal.errVal :: s.drop (nargs + 1)

/-- `check_lua_call`: on a non-zero Lua error code, logs the error object
at the top of the stack and pops it. -/
def check_lua_call (success : Bool) (s : LuaStack) : LuaStack :=
  if success then s else s.drop 1

/-- `do_lua_call(L, nargs, nresults)`: `lua_pcall` with the pinned error
handler, followed by `check_lua_call` on the result. -/
def do_lua_call (success : Bool) (nargs nresults : Nat) (s : LuaStack) : LuaStack :=
  check_lua_call success (lua_pcall success nargs nresults s)

/-- Return codes of barlib entry points:
`LUASTATUS_OK`, `LUASTATUS_NONFATAL_ERR`, `LUASTATUS_ERR`. -/
inductive BarRes
  | ok
  | nonfatalErr
  | err
deriving DecidableEq, Repr

/-- Externally visible actions taken by the callback bridge. -/
inductive Action
  | lockL
  | unlockL
  | lockB
  | unlockB
  | lockE
  | unlockE
  | luaCall
  | setVal (idx : Nat)
  | setErr (idx : Nat)
  | flushOutput
  | exitFailure
deriving DecidableEq, Repr

/-- `fatal_error_reported()`: `fflush(NULL)` then `_exit(EXIT_FAILURE)`. -/
def fatal_error_reported : List Action := [Action.flushOutput, Action.exitFailure]

/-- `set_error_unlocked(widget_idx)`: calls barlib's `set_error()` and, when
it reports `LUASTATUS_ERR`, escalates via `fatal_error_reported()`.
Returns the action trace and whether the process terminated. -/
def set_error_unlocked (widget_idx : Nat) (set_error_res : BarRes) :
    List Action × Bool :=
  if set_error_res = BarRes.err then
    (Action.setErr widget_idx :: fatal_error_reported, true)
  else ([Action.setErr widget_idx], false)

/-- One widget (the fields the bridge protocol reads).
`L = none` models a stillborn widget's `NULL` Lua context. -/
structure Widget where
  L : Option Unit
  lref_cb : LuaRef
  lref_event : LuaRef
  sepstate_event : Bool
deriving DecidableEq, Repr

/-- `widget_init_stillborn`: marks a widget stillborn — `L` is set to
`NULL`, `lref_event` to `LUA_REFNIL`, `sepstate_event` to `true`. -/
def widget_init_stillborn (w : Widget) : Widget :=
  { w with L := none, lref_event := LuaRef.refNil, sepstate_event := true }

/-- `widget_is_stillborn`: a widget is stillborn iff its `L` is `NULL`. -/
def widget_is_stillborn (w : Widget) : Bool := w.L = none

/-- Identity of a Lua interpreter instance: a widget's own state, or the
process-wide separate ("fallback") state. -/
inductive CtxId
  | own (idx : Nat)
  | sep
deriving DecidableEq, Repr

/-- `widget_event_lua_state`: the interpreter instance used for a widget's
event function — the separate state when `sepstate_event`, else its own. -/
def widget_event_lua_state (idx : Nat) (w : Widget) : CtxId :=
  if w.sepstate_event then CtxId.sep else CtxId.own idx

/-- Result of a bridge call: the action trace and the final stack of the
involved context (`none` when the process was terminated). -/
structure CallResult where
  actions : List Action
  stack : Option LuaStack
deriving DecidableEq, Repr

/-- `plugin_call_begin`: locks the widget's own state and pushes the
pinned main callback (`lref_cb`) onto its stack. -/
def plugin_call_begin (w : Widget) (s : LuaStack) : List Action × LuaStack :=
  ([Action.lockL], lua_rawgeti_registry w.lref_cb LuaVal.cbFun s)

/-- `plugin_call_end`: performs the protected call; on success forwards
the result to barlib's `set()` under the barlib lock, routing non-fatal
failures (of the Lua call or of `set()`) to `set_error()`, and fatal ones
to `fatal_error_reported()`; finally restores the stack to the baseline
and unlocks. -/
def plugin_call_end (widget_idx : Nat) (success : Bool)
    (set_res set_error_res : BarRes) (s : LuaStack) : CallResult :=
  let s1 := do_lua_call success 1 1 s
  if success then
    match set_res with
    | BarRes.ok =>
        ⟨[Action.luaCall, Action.lockB, Action.setVal widget_idx,
          Action.unlockB, Action.unlockL], some (lua_settop 1 s1)⟩
    | BarRes.nonfatalErr =>
        let r := set_error_unlocked widget_idx set_error_res
        if r.2 then
          ⟨[Action.luaCall, Action.lockB, Action.setVal widget_idx] ++ r.1, none⟩
        else
          ⟨[Action.luaCall, Action.lockB, Action.setVal widget_idx] ++ r.1 ++
            [Action.unlockB, Action.unlockL], some (lua_settop 1 s1)⟩
    | BarRes.err =>
        ⟨[Action.luaCall, Action.lockB, Action.setVal widget_idx] ++
          fatal_error_reported, none⟩
  else
    let r := set_error_unlocked widget_idx set_error_res
    if r.2 then ⟨[Action.luaCall, Action.lockB] ++ r.1, none⟩
    else ⟨[Action.luaCall, Action.lockB] ++ r.1 ++
      [Action.unlockB, Action.unlockL], some s1⟩

/-- `plugin_call_cancel`: restores the stack to the baseline of 1 (the
error handler) and unlocks the widget's own state. -/
def plugin_call_cancel (s : LuaStack) : CallResult :=
  ⟨[Action.unlockL], some (lua_settop 1 s)⟩

/-- `ew_call_begin`: locks the event context of the addressed widget
(its own or the separate state) and pushes the pinned event callback
(`lref_event`; nil when `LUA_REFNIL`). -/
def ew_call_begin (idx : Nat) (w : Widget) (s : LuaStack) :
    CtxId × List Action × LuaStack :=
  (widget_event_lua_state idx w, [Action.lockE],
    lua_rawgeti_registry w.lref_event LuaVal.eventFun s)

/-- `ew_call_end`: when the widget's event reference is `LUA_REFNIL`,
pops the pushed nil and the event object without calling anything;
otherwise performs the protected call (0 results), routing a failure to
barlib's `set_error()` under the barlib lock.  Finally unlocks. -/
def ew_call_end (widget_idx : Nat) (w : Widget) (success : Bool)
    (set_error_res : BarRes) (s : LuaStack) : CallResult :=
  if w.lref_event = LuaRef.refNil then
    ⟨[Action.unlockE], some (s.drop 2)⟩
  else
    let s1 := do_lua_call success 1 0 s
    if success then ⟨[Action.luaCall, Action.unlockE], some s1⟩
    else
      let r := set_error_unlocked widget_idx set_error_res
      if r.2 then ⟨[Action.luaCall, Action.lockB] ++ r.1, none⟩
      else ⟨[Action.luaCall, Action.lockB] ++ r.1 ++
        [Action.unlockB, Action.unlockE], some s1⟩

/-- `ew_call_cancel`: restores the event context's stack to the baseline
of 1 and unlocks it. -/
def ew_call_cancel (s : LuaStack) : CallResult :=
  ⟨[Action.unlockE], some (lua_settop 1 s)⟩

/-- Does a `CallResult` leave a stack of depth `n` whenever the process
did not terminate? -/
def balancedAt (n : Nat) (r : CallResult) : Bool :=
  match r.stack with
  | some s => s.length = n
  | none => true

/-! ### The key/value registry ("flat map") -/

/-- One registry entry: a key and an opaque value pointer (`none` models
the `NULL` the entry is created with).  Entries are individually
heap-allocated, so the pointer `&e->value` is stable; it is modelled by the
entry's position in the allocation order. -/
structure MapEntry where
  key : String
  value : Option Nat
deriving DecidableEq, Repr

/-- The registry: the list of allocated entries (in insertion order) and
the freeze flag. -/
structure MapState where
  entries : List MapEntry
  frozen : Bool
deriving DecidableEq, Repr

/-- The linear scan of `map_get`: position of the first entry whose key
equals `key`, if any. -/
def map_lookup : List MapEntry → String → Option Nat
  | [], _ => none
  | e :: es, key => if e.key = key then some 0 else (map_lookup es key).map (· + 1)

/-- `map_get`: aborts (`none`) when the map is frozen; otherwise returns a
pointer to the value slot of the entry with the given key, creating the
entry (with `NULL` value) if absent.  The returned `Nat` is the stable
identity of the value slot (position in allocation order). -/
def map_get (m : MapState) (key : String) : Option (Nat × MapState) :=
  if m.frozen then none
  else
    match map_lookup m.entries key with
    | some i => some (i, m)
    | none =>
        some (m.entries.length, ⟨m.entries ++ [⟨key, none⟩], m.frozen⟩)

/-! ### Module loading -/

/-- What the dynamic linker can observe about one shared-object file:
whether `dlopen` succeeds, the value of the Lua-ABI-version symbol
(`none` = symbol missing/NULL), and whether the interface-struct symbol
is present. -/
structure SOFile where
  openable : Bool
  ver_sym : Option Int
  iface_sym : Bool
deriving DecidableEq, Repr

/-- Events of a module-loading attempt relevant to resource tracking. -/
inductive LoadEvent
  | dlopenOk
  | dlclose
deriving DecidableEq, Repr

/-- `plugin_load`: opens the shared object, validates the
`LUASTATUS_PLUGIN_LUA_VERSION_NUM` symbol against the host's
`LUA_VERSION_NUM`, and reads `luastatus_plugin_iface_v1`; every failing
step after a successful `dlopen` closes the handle (`goto error`).
Returns whether loading succeeded and the handle-event trace. -/
def plugin_load (host_ver : Int) (f : SOFile) : Bool × List LoadEvent :=
  if !f.openable then (false, [])
  else
    match f.ver_sym with
    | none => (false, [LoadEvent.dlopenOk, LoadEvent.dlclose])
    | some v =>
        if v ≠ host_ver then (false, [LoadEvent.dlopenOk, LoadEvent.dlclose])
        else if !f.iface_sym then (false, [LoadEvent.dlopenOk, LoadEvent.dlclose])
        else (true, [LoadEvent.dlopenOk])

/-- `barlib_init`: same loading sequence against
`LUASTATUS_BARLIB_LUA_VERSION_NUM` and `luastatus_barlib_iface_v1`,
followed by the barlib's own `init()`, whose failure also takes the
`goto error` path and closes the handle. -/
def barlib_init (host_ver : Int) (f : SOFile) (init_ok : Bool) :
    Bool × List LoadEvent :=
  if !f.openable then (false, [])
  else
    match f.ver_sym with
    | none => (false, [LoadEvent.dlopenOk, LoadEvent.dlclose])
    | some v =>
        if v ≠ host_ver then (false, [LoadEvent.dlopenOk, LoadEvent.dlclose])
        else if !f.iface_sym then (false, [LoadEvent.dlopenOk, LoadEvent.dlclose])
        else if !init_ok then (false, [LoadEvent.dlopenOk, LoadEvent.dlclose])
        else (true, [LoadEvent.dlopenOk])

/-- `strchr(name, slash) != NULL`: the name contains a `/` character. -/
def has_slash (s : String) : Bool := s.data.contains '/'

/-- The path `"%s/plugin-%s.so" % (plugins_dir, name)`.  The installation
directory `LUASTATUS_PLUGINS_DIR` comes from the generated build
configuration and is therefore a parameter. -/
def plugin_so_path (plugins_dir name : String) : String :=
  plugins_dir ++ "/plugin-" ++ name ++ ".so"

/-- The path `"%s/barlib-%s.so" % (barlibs_dir, name)`.  The installation
directory `LUASTATUS_BARLIBS_DIR` comes from the generated build
configuration and is therefore a parameter. -/
def barlib_so_path (barlibs_dir name : String) : String :=
  barlibs_dir ++ "/barlib-" ++ name ++ ".so"

/-- `plugin_load_by_name`: a name containing `/` is used verbatim as the
file path; otherwise the path is expanded against the installation
directory.  `env` maps a file path to what the dynamic linker finds
there. -/
def plugin_load_by_name (env : String → SOFile) (host_ver : Int)
    (plugins_dir name : String) : Bool × List LoadEvent :=
  if has_slash name then plugin_load host_ver (env name)
  else plugin_load host_ver (env (plugin_so_path plugins_dir name))

/-- `barlib_init_by_name`: a name containing `/` is used verbatim as the
file path; otherwise the path is expanded against the installation
directory. -/
def barlib_init_by_name (env : String → SOFile) (host_ver : Int)
    (barlibs_dir name : String) (init_ok : Bool) : Bool × List LoadEvent :=
  if has_slash name then barlib_init host_ver (env name) init_ok
  else barlib_init host_ver (env (barlib_so_path barlibs_dir name)) init_ok

/-! ### Log levels -/

/-- `loglevel_names`, indexed by the log-level constants
(`LUASTATUS_LOG_FATAL = 0` through `LUASTATUS_LOG_TRACE = 6`, in the
severity order fatal, error, warning, info, verbose, debug, trace). -/
def loglevel_names : List String :=
  ["fatal", "error", "warning", "info", "verbose", "debug", "trace"]

/-- `LUASTATUS_LOG_LAST`: one past the last log-level constant. -/
def LUASTATUS_LOG_LAST : Nat := 7

/-- `loglevel_fromstr`: scans `loglevel_names` in index order and returns
the first index whose name equals `str`, or `LUASTATUS_LOG_LAST`
(= the array length) when none matches. -/
def loglevel_fromstr (str : String) : Nat :=
  loglevel_names.findIdx (fun name => str = name)

/-! ### Process exit codes (`main`) -/

def EXIT_SUCCESS : Nat := 0

def EXIT_FAILURE : Nat := 1

/-- Outcome of `main`'s `getopt` argument loop. -/
inductive ArgsResult
  | parsed (barlib_given : Bool) (eflag : Bool)
  | badLoglevel
  | versionRequested
  | badOption
deriving DecidableEq, Repr

/-- The terminating control flow of `main`: `ret` starts at
`EXIT_FAILURE`; argument errors, `-v`, a missing `-b`, and a barlib that
fails to load all reach `cleanup` with that value; a fatal error during
delivery or from the event watcher reaches `_exit(EXIT_FAILURE)`; after
all widget threads and the event watcher return, `-e` exits with
`EXIT_SUCCESS` and otherwise the process hangs forever (`none`). -/
def main_model (args : ArgsResult) (barlib_load_ok : Bool)
    (ew_fatal : Bool) (delivery_fatal : Bool) : Option Nat :=
  match args with
  | ArgsResult.badOption => some EXIT_FAILURE
  | ArgsResult.badLoglevel => some EXIT_FAILURE
  | ArgsResult.versionRequested => some EXIT_FAILURE
  | ArgsResult.parsed barlib_given eflag =>
      if !barlib_given then some EXIT_FAILURE
      else if !barlib_load_ok then some EXIT_FAILURE
      else if delivery_fatal then some EXIT_FAILURE
      else if ew_fatal then some EXIT_FAILURE
      else if eflag then some EXIT_SUCCESS
      else none

/-! ### The udev plugin's option parsing (timeout field) -/

/-- A `struct timespec` produced by `ls_timespec_from_seconds`; `none`
models the invalid sentinel `ls_timespec_invalid` (libls/time_utils.h is
not part of this tree, so the conversion itself stays abstract). -/
abbrev TimeSpec := Option (Nat × Nat)

/-- `ls_timespec_invalid`: the sentinel meaning "no timeout". -/
def ls_timespec_invalid : TimeSpec := none

/-- `ls_timespec_is_invalid`. -/
def ls_timespec_is_invalid (t : TimeSpec) : Bool := t.isNone

/-- The fields of the udev plugin's `Priv` that `init` fills in. -/
structure Priv where
  subsystem : Option String
  devtype : Option String
  tag : Option String
  kernel_ev : Bool
  greet : Bool
  timeout : TimeSpec
  pushed_timeout : TimeSpec
deriving DecidableEq, Repr

/-- The initial `Priv` of udev's `init`: everything unset, both timeout
fields at the invalid sentinel. -/
def priv_initial : Priv :=
  ⟨none, none, none, false, false, ls_timespec_invalid, ls_timespec_invalid⟩

/-- The body of udev `init`'s visitor for a numeric `timeout` option:
`if (n >= 0 && ls_timespec_is_invalid(p->timeout = ls_timespec_from_seconds(n)))
goto error;` — the assignment to `p->timeout` is short-circuited away
when `n < 0`.  `from_seconds` abstracts `ls_timespec_from_seconds`;
`Except.error` models `init` returning `LUASTATUS_ERR`. -/
def init_visit_timeout (from_seconds : Int → TimeSpec) (p : Priv) (n : Int) :
    Except Unit Priv :=
  if n ≥ 0 then
    let p1 := { p with timeout := from_seconds n }
    if ls_timespec_is_invalid p1.timeout then Except.error () else Except.ok p1
  else Except.ok p

/-! ## Theorems -/

/-- C1: For every widget (Normal or Stillborn) and for both the
plugin-side and event-watcher-side bridge, each `call_begin` followed by
exactly one of `call_end` or `call_cancel` leaves the Lua context's stack
depth equal to the depth before `call_begin` (the baseline of 1, holding
only the error handler). -/
theorem C1_call_begin_end_balanced (w : Widget) (idx : Nat) (success : Bool)
    (set_res set_error_res : BarRes) (extra : List LuaVal) :
    balancedAt 1 (plugin_call_end idx success set_res set_error_res
      (LuaVal.argVal :: (plugin_call_begin w [LuaVal.errHandler]).2)) = true
    ∧ balancedAt 1 (plugin_call_cancel
      (extra ++ (plugin_call_begin w [LuaVal.errHandler]).2)) = true
    ∧ balancedAt 1 (ew_call_end idx w success set_error_res
      (LuaVal.argVal :: (ew_call_begin idx w [LuaVal.errHandler]).2.2)) = true
    ∧ balancedAt 1 (ew_call_cancel
      (extra ++ (ew_call_begin idx w [LuaVal.errHandler]).2.2)) = true := by
  obtain ⟨L, cb, ev, sep⟩ := w
  refine ⟨?_, ?_, ?_, ?_⟩
  · cases success <;> cases set_res <;> cases set_error_res <;>
      simp [plugin_call_end, plugin_call_begin, lua_rawgeti_registry,
        do_lua_call, check_lua_call, lua_pcall, lua_settop,
        set_error_unlocked, fatal_error_reported, balancedAt]
  · simp [plugin_call_cancel, plugin_call_begin, lua_rawgeti_registry,
      lua_settop, balancedAt]
  · cases ev with
    | refNil =>
        simp [ew_call_end, ew_call_begin, lua_rawgeti_registry, balancedAt]
    | ref n =>
        cases success <;> cases set_error_res <;>
          simp [ew_call_end, ew_call_begin, lua_rawgeti_registry,
            do_lua_call, check_lua_call, lua_pcall, set_error_unlocked,
            fatal_error_reported, balancedAt]
  · simp [ew_call_cancel, ew_call_begin, lua_rawgeti_registry, lua_settop,
      balancedAt]

/-- C2: In `plugin_call_end`: if the protected Lua call succeeds, the
returned value is forwarded to barlib's `set` for the widget's index
under the barlib lock (the trace begins `luaCall, lockB, setVal idx`); if
the Lua call fails, or `set` returns a non-fatal error, `set_error` is
called for the same index instead; if `set` or `set_error` returns a
fatal error, the process terminates after flushing output. -/
theorem C2_plugin_call_end_routing (idx : Nat) (success : Bool)
    (set_res set_error_res : BarRes) :
    (success = true →
      (plugin_call_end idx success set_res set_error_res
        [LuaVal.argVal, LuaVal.cbFun, LuaVal.errHandler]).actions.take 3 =
        [Action.luaCall, Action.lockB, Action.setVal idx])
    ∧ (success = false →
      Action.setErr idx ∈ (plugin_call_end idx success set_res set_error_res
        [LuaVal.argVal, LuaVal.cbFun, LuaVal.errHandler]).actions
      ∧ Action.setVal idx ∉ (plugin_call_end idx success set_res set_error_res
        [LuaVal.argVal, LuaVal.cbFun, LuaVal.errHandler]).actions)
    ∧ (success = true → set_res = BarRes.nonfatalErr →
      Action.setErr idx ∈ (plugin_call_end idx success set_res set_error_res
        [LuaVal.argVal, LuaVal.cbFun, LuaVal.errHandler]).actions)
    ∧ ((success = true ∧ set_res = BarRes.err) ∨
        (Action.setErr idx ∈ (plugin_call_end idx success set_res set_error_res
          [LuaVal.argVal, LuaVal.cbFun, LuaVal.errHandler]).actions
         ∧ set_error_res = BarRes.err) →
      (plugin_call_end idx success set_res set_error_res
        [LuaVal.argVal, LuaVal.cbFun, LuaVal.errHandler]).stack = none
      ∧ (plugin_call_end idx success set_res set_error_res
          [LuaVal.argVal, LuaVal.cbFun, LuaVal.errHandler]).actions.reverse.take 2 =
        [Action.exitFailure, Action.flushOutput]) := by
  cases success <;> cases set_res <;> cases set_error_res <;>
    simp [plugin_call_end, do_lua_call, check_lua_call, lua_pcall,
      lua_settop, set_error_unlocked, fatal_error_reported]

/-- C2 witness: concrete instantiation (widget 0, failed Lua call,
`set_error` succeeding) exercising the error route. -/
theorem C2_plugin_call_end_routing_witness :
    (false : Bool) = false ∧
    Action.setErr 0 ∈ (plugin_call_end 0 false BarRes.ok BarRes.ok
      [LuaVal.argVal, LuaVal.cbFun, LuaVal.errHandler]).actions
    ∧ Action.setVal 0 ∉ (plugin_call_end 0 false BarRes.ok BarRes.ok
      [LuaVal.argVal, LuaVal.cbFun, LuaVal.errHandler]).actions :=
  ⟨rfl, (C2_plugin_call_end_routing 0 false BarRes.ok BarRes.ok).2.1 rfl⟩

/-- C3: A stillborn widget (as produced by `widget_init_stillborn`,
whichever initialization step failed) has a `NULL` Lua context,
`sepstate_event = true` and `lref_event = LUA_REFNIL`; consequently
`ew_call_begin` on its index yields the shared separate state and
`ew_call_end` discards the pushed event object — its trace performs no
Lua call and no barlib delivery, identically for every input widget. -/
theorem C3_stillborn_event_delivery (w : Widget) (idx : Nat) (success : Bool)
    (set_error_res : BarRes) :
    (widget_init_stillborn w).L = none
    ∧ (widget_init_stillborn w).sepstate_event = true
    ∧ (widget_init_stillborn w).lref_event = LuaRef.refNil
    ∧ widget_is_stillborn (widget_init_stillborn w) = true
    ∧ (ew_call_begin idx (widget_init_stillborn w) [LuaVal.errHandler]).1 = CtxId.sep
    ∧ ew_call_end idx (widget_init_stillborn w) success set_error_res
        (LuaVal.argVal ::
          (ew_call_begin idx (widget_init_stillborn w) [LuaVal.errHandler]).2.2) =
      ⟨[Action.unlockE], some [LuaVal.errHandler]⟩ := by
  simp [widget_init_stillborn, widget_is_stillborn, ew_call_begin, ew_call_end,
    widget_event_lua_state, lua_rawgeti_registry]

/-- C4: Calling `map_get` after the freeze flag has been set aborts the
process (modelled as `none`), for every key and every prior entry list;
it never creates an entry or returns normally in the frozen state. -/
theorem C4_map_get_frozen_aborts (m : MapState) (key : String)
    (h : m.frozen = true) : map_get m key = none := by
  simp [map_get, h]

/-- C4 witness: a frozen map with one prior entry. -/
theorem C4_map_get_frozen_aborts_witness :
    (MapState.mk [⟨"a", some 5⟩] true).frozen = true
    ∧ map_get (MapState.mk [⟨"a", some 5⟩] true) "a" = none :=
  ⟨rfl, C4_map_get_frozen_aborts (MapState.mk [⟨"a", some 5⟩] true) "a" rfl⟩

/-- Helper for C5: appending a fresh entry for a key not yet present
makes the linear scan find it at the old length. -/
theorem map_lookup_append_fresh (es : List MapEntry) (key : String)
    (h : map_lookup es key = none) :
    map_lookup (es ++ [⟨key, none⟩]) key = some es.length := by
  induction es with
  | nil => simp [map_lookup]
  | cons e es ih =>
      by_cases hk : e.key = key
      · simp [map_lookup, hk] at h
      · rw [map_lookup, if_neg hk] at h
        have h2 : map_lookup es key = none := by
          cases hx : map_lookup es key <;> simp [hx] at h ⊢
        simp [map_lookup, hk, ih h2]

/-- Helper for C5: the first-match position of a present key is unchanged
by any append at the end of the entry list. -/
theorem map_lookup_append_mono (es ds : List MapEntry) (key : String)
    (i : Nat) (h : map_lookup es key = some i) :
    map_lookup (es ++ ds) key = some i := by
  induction es generalizing i with
  | nil => simp [map_lookup] at h
  | cons e es ih =>
      by_cases hk : e.key = key
      · rw [map_lookup, if_pos hk] at h
        rw [List.cons_append, map_lookup, if_pos hk]
        exact h
      · rw [map_lookup, if_neg hk] at h
        cases hx : map_lookup es key with
        | none => rw [hx] at h; simp at h
        | some j =>
            rw [hx] at h
            rw [List.cons_append, map_lookup, if_neg hk, ih j hx]
            exact h

/-- Helper for C5: one `map_get` call only ever appends to the entry list
and preserves the freeze flag. -/
theorem map_get_extends (m : MapState) (k : String) (i : Nat) (m2 : MapState)
    (h : map_get m k = some (i, m2)) :
    (∃ ds, m2.entries = m.entries ++ ds) ∧ m2.frozen = m.frozen := by
  rw [map_get] at h
  by_cases hf : m.frozen
  · simp [hf] at h
  · rw [if_neg hf] at h
    cases hx : map_lookup m.entries k with
    | some j =>
        rw [hx] at h
        obtain ⟨-, rfl⟩ : j = i ∧ m = m2 := by simpa using h
        exact ⟨⟨[], by simp⟩, rfl⟩
    | none =>
        rw [hx] at h
        obtain ⟨-, rfl⟩ :
            m.entries.length = i
              ∧ MapState.mk (m.entries ++ [⟨k, none⟩]) m.frozen = m2 := by
          simpa using h
        exact ⟨⟨[⟨k, none⟩], rfl⟩, rfl⟩

/-- A sequence of `map_get` calls with the given keys (any intervening
insertions), as performed by plugins and the barlib during startup. -/
def map_get_run : MapState → List String → MapState
  | m, [] => m
  | m, k :: ks =>
      match map_get m k with
      | some p => map_get_run p.2 ks
      | none => m

/-- Helper for C5: a run of `map_get` calls only ever appends to the
entry list and preserves the freeze flag. -/
theorem map_get_run_extends (ks : List String) (m : MapState) :
    (∃ ds, (map_get_run m ks).entries = m.entries ++ ds)
    ∧ (map_get_run m ks).frozen = m.frozen := by
  induction ks generalizing m with
  | nil => exact ⟨⟨[], by simp [map_get_run]⟩, rfl⟩
  | cons k ks ih =>
      rw [map_get_run]
      cases hx : map_get m k with
      | none => exact ⟨⟨[], by simp⟩, rfl⟩
      | some p =>
          obtain ⟨⟨ds1, hds1⟩, hf1⟩ := map_get_extends m k p.1 p.2 hx
          obtain ⟨⟨ds2, hds2⟩, hf2⟩ := ih p.2
          exact ⟨⟨ds1 ++ ds2, by rw [hds2, hds1, List.append_assoc]⟩,
            by rw [hf2, hf1]⟩

/-- Helper for C5: a call that returned slot identity `i` for `key` left
`key` findable at position `i`. -/
theorem map_get_lookup_after (m : MapState) (key : String) (i : Nat)
    (m2 : MapState) (h : m.frozen = false)
    (hget : map_get m key = some (i, m2)) :
    map_lookup m2.entries key = some i := by
  rw [map_get, if_neg (by simp [h])] at hget
  cases hx : map_lookup m.entries key with
  | some j =>
      rw [hx] at hget
      obtain ⟨rfl, rfl⟩ : j = i ∧ m = m2 := by simpa using hget
      exact hx
  | none =>
      rw [hx] at hget
      obtain ⟨rfl, rfl⟩ :
          m.entries.length = i
            ∧ MapState.mk (m.entries ++ [⟨key, none⟩]) m.frozen = m2 := by
        simpa using hget
      exact map_lookup_append_fresh m.entries key hx

/-- C5: Before freeze, `map_get` is a get-or-create operation with unique
keys: a call with a key not yet present creates exactly one entry with a
`NULL` value at the end of the entry list; and whenever a call returns
value-slot identity `i` and map `m2`, every subsequent call with the same
key — after any sequence of intervening `map_get` calls with arbitrary
keys — returns the same identity `i` and creates no new entry, so two
calls with equal keys always return equal pointers.  (`ks := []` is the
immediately-repeated call.) -/
theorem C5_map_get_get_or_create (m : MapState) (key : String)
    (h : m.frozen = false) :
    (map_lookup m.entries key = none →
      map_get m key =
        some (m.entries.length, MapState.mk (m.entries ++ [⟨key, none⟩]) false))
    ∧ (∀ i m2, map_get m key = some (i, m2) → ∀ ks : List String,
        map_get (map_get_run m2 ks) key = some (i, map_get_run m2 ks)) := by
  constructor
  · intro hnone
    simp [map_get, h, hnone]
  · intro i m2 hget ks
    have hf2 : m2.frozen = false := by
      rw [(map_get_extends m key i m2 hget).2, h]
    have hlook2 : map_lookup m2.entries key = some i :=
      map_get_lookup_after m key i m2 h hget
    obtain ⟨⟨ds, hds⟩, hf3⟩ := map_get_run_extends ks m2
    have hlook3 : map_lookup (map_get_run m2 ks).entries key = some i := by
      rw [hds]
      exact map_lookup_append_mono m2.entries ds key i hlook2
    rw [map_get, if_neg (by rw [hf3, hf2]; simp), hlook3]

/-- C5 witness: starting from the empty unfrozen map, the first call with
key `"k"` creates the entry; after an intervening insertion of another
key, a later call with `"k"` still returns slot identity 0 and leaves the
map unchanged. -/
theorem C5_map_get_get_or_create_witness :
    (MapState.mk [] false).frozen = false
    ∧ map_lookup (MapState.mk [] false).entries "k" = none
    ∧ map_get (MapState.mk [] false) "k" =
        some (0, MapState.mk [⟨"k", none⟩] false)
    ∧ map_get_run (MapState.mk [⟨"k", none⟩] false) ["other"] =
        MapState.mk [⟨"k", none⟩, ⟨"other", none⟩] false
    ∧ map_get (map_get_run (MapState.mk [⟨"k", none⟩] false) ["other"]) "k" =
        some (0, map_get_run (MapState.mk [⟨"k", none⟩] false) ["other"]) :=
  ⟨rfl, rfl,
    (C5_map_get_get_or_create (MapState.mk [] false) "k" rfl).1 rfl,
    by decide,
    (C5_map_get_get_or_create (MapState.mk [] false) "k" rfl).2 0
      (MapState.mk [⟨"k", none⟩] false)
      ((C5_map_get_get_or_create (MapState.mk [] false) "k" rfl).1 rfl)
      ["other"]⟩

/-- C6: Module loading fails exactly when the shared object cannot be
opened, the Lua-ABI-version symbol is missing or differs from the host's
`LUA_VERSION_NUM`, or the interface-struct symbol is missing (for the
barlib these conditions also force failure); and whenever loading fails,
every opened handle has been closed before the error is returned. -/
theorem C6_module_load_failure (host_ver : Int) (f : SOFile) (init_ok : Bool) :
    ((plugin_load host_ver f).1 = false ↔
      (f.openable = false ∨ f.ver_sym = none ∨
        (∃ v, f.ver_sym = some v ∧ v ≠ host_ver) ∨ f.iface_sym = false))
    ∧ ((plugin_load host_ver f).1 = false →
      (plugin_load host_ver f).2.count LoadEvent.dlclose =
        (plugin_load host_ver f).2.count LoadEvent.dlopenOk)
    ∧ ((f.openable = false ∨ f.ver_sym = none ∨
        (∃ v, f.ver_sym = some v ∧ v ≠ host_ver) ∨ f.iface_sym = false) →
      (barlib_init host_ver f init_ok).1 = false)
    ∧ ((barlib_init host_ver f init_ok).1 = false →
      (barlib_init host_ver f init_ok).2.count LoadEvent.dlclose =
        (barlib_init host_ver f init_ok).2.count LoadEvent.dlopenOk) := by
  obtain ⟨op, ver, ifc⟩ := f
  rcases ver with _ | v
  · cases op <;> cases ifc <;> cases init_ok <;> simp [plugin_load, barlib_init]
  · by_cases hv : v = host_ver <;>
      cases op <;> cases ifc <;> cases init_ok <;>
        simp [plugin_load, barlib_init, hv]

/-- C6 witness: an openable file whose version symbol differs from the
host's version — loading fails with the handle closed. -/
theorem C6_module_load_failure_witness :
    (plugin_load 502 (SOFile.mk true (some 501) true)).1 = false
    ∧ (plugin_load 502 (SOFile.mk true (some 501) true)).2.count
        LoadEvent.dlclose =
      (plugin_load 502 (SOFile.mk true (some 501) true)).2.count
        LoadEvent.dlopenOk :=
  ⟨by decide,
    (C6_module_load_failure 502 (SOFile.mk true (some 501) true) true).2.1
      (by decide)⟩

/-- C7: For every module name: a name containing `/` is used verbatim as
the file path to load; otherwise the path is expanded against the
installation directory with the kind-specific prefix and `.so` suffix
(`plugin-<name>.so` for plugins, `barlib-<name>.so` for the barlib), and
loading by name yields the same result as loading that path directly. -/
theorem C7_load_by_name_resolution (env : String → SOFile) (host_ver : Int)
    (plugins_dir barlibs_dir name : String) (init_ok : Bool) :
    (has_slash name = true →
      plugin_load_by_name env host_ver plugins_dir name =
        plugin_load host_ver (env name)
      ∧ barlib_init_by_name env host_ver barlibs_dir name init_ok =
        barlib_init host_ver (env name) init_ok)
    ∧ (has_slash name = false →
      plugin_load_by_name env host_ver plugins_dir name =
        plugin_load host_ver
          (env (plugins_dir ++ "/plugin-" ++ name ++ ".so"))
      ∧ barlib_init_by_name env host_ver barlibs_dir name init_ok =
        barlib_init host_ver
          (env (barlibs_dir ++ "/barlib-" ++ name ++ ".so")) init_ok) := by
  constructor <;> intro h <;>
    simp [plugin_load_by_name, barlib_init_by_name, plugin_so_path,
      barlib_so_path, h]

/-- C7 witness: a name with a slash resolves verbatim; a plain name
resolves to the expanded installation path. -/
theorem C7_load_by_name_resolution_witness :
    has_slash "a/b.so" = true
    ∧ has_slash "time" = false
    ∧ plugin_load_by_name (fun _ => SOFile.mk false none false) 502
        "/usr/lib/luastatus/plugins" "a/b.so" =
      plugin_load 502 ((fun _ => SOFile.mk false none false) "a/b.so")
    ∧ plugin_load_by_name (fun _ => SOFile.mk false none false) 502
        "/usr/lib/luastatus/plugins" "time" =
      plugin_load 502 ((fun _ => SOFile.mk false none false)
        ("/usr/lib/luastatus/plugins" ++ "/plugin-" ++ "time" ++ ".so")) :=
  ⟨by decide, by decide,
    ((C7_load_by_name_resolution (fun _ => SOFile.mk false none false) 502
      "/usr/lib/luastatus/plugins" "" "a/b.so" true).1 (by decide)).1,
    ((C7_load_by_name_resolution (fun _ => SOFile.mk false none false) 502
      "/usr/lib/luastatus/plugins" "" "time" true).2 (by decide)).1⟩

/-- C8: The process exit code is `EXIT_SUCCESS` (0) exactly on the path
where `-e` was passed (with a barlib given, loading, and no fatal error)
and all widget threads and the event watcher have returned; every other
terminating path — argument errors, failure to load the barlib, or a
fatal error surfaced during delivery or from the event watcher — yields
`EXIT_FAILURE`; and every run either hangs, succeeds, or fails. -/
theorem C8_exit_codes (args : ArgsResult) (barlib_load_ok ew_fatal
    delivery_fatal : Bool) :
    (main_model args barlib_load_ok ew_fatal delivery_fatal =
        some EXIT_SUCCESS ↔
      args = ArgsResult.parsed true true ∧ barlib_load_ok = true ∧
        ew_fatal = false ∧ delivery_fatal = false)
    ∧ (main_model args barlib_load_ok ew_fatal delivery_fatal =
          some EXIT_SUCCESS
        ∨ main_model args barlib_load_ok ew_fatal delivery_fatal =
          some EXIT_FAILURE
        ∨ main_model args barlib_load_ok ew_fatal delivery_fatal = none)
    ∧ (args = ArgsResult.badOption ∨ args = ArgsResult.badLoglevel ∨
        args = ArgsResult.versionRequested →
      main_model args barlib_load_ok ew_fatal delivery_fatal =
        some EXIT_FAILURE)
    ∧ (∀ ef, args = ArgsResult.parsed true ef → barlib_load_ok = false →
      main_model args barlib_load_ok ew_fatal delivery_fatal =
        some EXIT_FAILURE)
    ∧ (∀ ef, args = ArgsResult.parsed true ef → barlib_load_ok = true →
        (ew_fatal = true ∨ delivery_fatal = true) →
      main_model args barlib_load_ok ew_fatal delivery_fatal =
        some EXIT_FAILURE) := by
  rcases args with ⟨bg, ef⟩ | _ | _ | _
  · cases bg <;> cases ef <;> cases barlib_load_ok <;> cases ew_fatal <;>
      cases delivery_fatal <;> simp [main_model, EXIT_SUCCESS, EXIT_FAILURE]
  · simp [main_model, EXIT_SUCCESS, EXIT_FAILURE]
  · simp [main_model, EXIT_SUCCESS, EXIT_FAILURE]
  · simp [main_model, EXIT_SUCCESS, EXIT_FAILURE]

/-- C8 witness: with `-e` passed and everything healthy the model exits 0;
with a barlib that fails to load it exits 1. -/
theorem C8_exit_codes_witness :
    main_model (ArgsResult.parsed true true) true false false =
      some EXIT_SUCCESS
    ∧ main_model (ArgsResult.parsed true false) false false false =
      some EXIT_FAILURE :=
  ⟨((C8_exit_codes (ArgsResult.parsed true true) true false false).1).2
      ⟨rfl, rfl, rfl, rfl⟩,
    (C8_exit_codes (ArgsResult.parsed true false) false false
        false).2.2.2.1 false rfl rfl⟩

/-- C9: Log-level name lookup round-trips with the name table: for every
log level 0–6, `loglevel_fromstr (loglevel_names[level]) = level`; and
for every string not equal to any entry of `loglevel_names`,
`loglevel_fromstr` returns `LUASTATUS_LOG_LAST`. -/
theorem C9_loglevel_roundtrip :
    (∀ i : Fin 7,
      loglevel_fromstr (loglevel_names.get (Fin.cast rfl i)) = (i : Nat))
    ∧ ∀ s : String, s ∉ loglevel_names →
      loglevel_fromstr s = LUASTATUS_LOG_LAST := by
  constructor
  · decide
  · intro s hs
    simp only [loglevel_names, List.mem_cons, List.not_mem_nil, or_false,
      not_or] at hs
    obtain ⟨h0, h1, h2, h3, h4, h5, h6⟩ := hs
    simp [loglevel_fromstr, loglevel_names, LUASTATUS_LOG_LAST,
      List.findIdx_cons, h0, h1, h2, h3, h4, h5, h6]

/-- C9 witness: an unknown log-level name maps to `LUASTATUS_LOG_LAST`. -/
theorem C9_loglevel_roundtrip_witness :
    "warn" ∉ loglevel_names
    ∧ loglevel_fromstr "warn" = LUASTATUS_LOG_LAST :=
  ⟨by decide, C9_loglevel_roundtrip.2 "warn" (by decide)⟩

/-- C10: In the udev plugin's `init`, a negative numeric `timeout` option
is silently accepted: the `&&` short-circuit skips the assignment, the
field stays at the invalid sentinel meaning "no timeout", and the visitor
reports `LUASTATUS_ERR` exactly when the value is non-negative and its
conversion to a timespec is invalid. -/
theorem C10_udev_timeout_negative (from_seconds : Int → TimeSpec) (n : Int) :
    (n < 0 →
      init_visit_timeout from_seconds priv_initial n = Except.ok priv_initial
      ∧ priv_initial.timeout = ls_timespec_invalid)
    ∧ (init_visit_timeout from_seconds priv_initial n = Except.error () ↔
      0 ≤ n ∧ ls_timespec_is_invalid (from_seconds n) = true) := by
  constructor
  · intro h
    exact ⟨by simp [init_visit_timeout, not_le.mpr h], rfl⟩
  · by_cases h : 0 ≤ n
    · cases hv : ls_timespec_is_invalid (from_seconds n) <;>
        simp [init_visit_timeout, h, hv]
    · simp [init_visit_timeout, h]

/-- C10 witness: `timeout = -1` with a conversion that would be invalid is
still accepted, leaving the sentinel in place. -/
theorem C10_udev_timeout_negative_witness :
    (-1 : Int) < 0
    ∧ init_visit_timeout (fun _ => ls_timespec_invalid) priv_initial (-1) =
      Except.ok priv_initial
    ∧ priv_initial.timeout = ls_timespec_invalid :=
  ⟨by decide,
    (C10_udev_timeout_negative (fun _ => ls_timespec_invalid) (-1)).1
      (by decide)⟩

end Luastatus
